import Mathlib

/-!
Shallow embedding of the Co2Predicts backend (data processor, model trainer,
time-series predictor, recommendation scorer) and proofs of the claimed
properties.  Numeric values are modelled by `ℚ`; the fitted scikit-learn /
XGBoost estimators, whose learned parameters are opaque, are modelled as
abstract functions supplied by an `MLEnv` environment.
-/

/-- Lexicographic comparison of character lists by code point, the order
Python uses when comparing strings (`sorted`, tuple comparison). -/
def lexLe : List Char → List Char → Bool
  | [], _ => true
  | _ :: _, [] => false
  | a :: as, b :: bs =>
    if a.toNat < b.toNat then true
    else if b.toNat < a.toNat then false
    else lexLe as bs

/-- String comparison by code points, as Python compares strings. -/
def strLe (a b : String) : Bool := lexLe a.data b.data

theorem lexLe_cons (x y : Char) (xs ys : List Char) :
    lexLe (x :: xs) (y :: ys) = true ↔
      x.toNat < y.toNat ∨ (x.toNat = y.toNat ∧ lexLe xs ys = true) := by
  simp only [lexLe]
  split_ifs with h1 h2
  · simp [h1]
  · simp only [Bool.false_eq_true, false_iff]
    rintro (h | ⟨h, _⟩) <;> omega
  · have h : x.toNat = y.toNat := by omega
    simp [h]

theorem lexLe_total (a b : List Char) : lexLe a b = true ∨ lexLe b a = true := by
  induction a generalizing b with
  | nil => left; rfl
  | cons x xs ih =>
    cases b with
    | nil => right; rfl
    | cons y ys =>
      rcases Nat.lt_trichotomy x.toNat y.toNat with h | h | h
      · left; exact (lexLe_cons x y xs ys).mpr (Or.inl h)
      · rcases ih ys with hl | hl
        · left; exact (lexLe_cons x y xs ys).mpr (Or.inr ⟨h, hl⟩)
        · right; exact (lexLe_cons y x ys xs).mpr (Or.inr ⟨h.symm, hl⟩)
      · right; exact (lexLe_cons y x ys xs).mpr (Or.inl h)

theorem lexLe_trans {a b c : List Char} (hab : lexLe a b = true) (hbc : lexLe b c = true) :
    lexLe a c = true := by
  induction a generalizing b c with
  | nil => rfl
  | cons x xs ih =>
    cases b with
    | nil => simp [lexLe] at hab
    | cons y ys =>
      cases c with
      | nil => simp [lexLe] at hbc
      | cons z zs =>
        rcases (lexLe_cons x y xs ys).mp hab with h | ⟨h, hl⟩ <;>
          rcases (lexLe_cons y z ys zs).mp hbc with h' | ⟨h', hl'⟩ <;>
          refine (lexLe_cons x z xs zs).mpr ?_
        · left; omega
        · left; omega
        · left; omega
        · exact Or.inr ⟨by omega, ih hl hl'⟩

namespace EmissionRecommendations

/-- The static emission-level recommendation catalog
(`self.recommendations` in `EmissionRecommendations.__init__`). -/
def recommendations : List (String × List String) :=
  [("high_emissions",
    ["Implement carbon pricing mechanisms",
     "Invest in renewable energy infrastructure",
     "Promote electric vehicle adoption",
     "Improve energy efficiency in industries",
     "Develop sustainable public transportation"]),
   ("medium_emissions",
    ["Expand renewable energy capacity",
     "Enhance building energy efficiency",
     "Support sustainable agriculture",
     "Promote waste reduction and recycling",
     "Develop green urban planning"]),
   ("low_emissions",
    ["Maintain and expand existing green initiatives",
     "Invest in carbon capture technologies",
     "Promote sustainable tourism",
     "Support local environmental projects",
     "Educate about sustainable living"])]

/-- The static industry-specific recommendation catalog
(`self.industry_specific` in `EmissionRecommendations.__init__`). -/
def industry_specific : List (String × List String) :=
  [("manufacturing",
    ["Adopt energy-efficient manufacturing processes",
     "Implement waste heat recovery systems",
     "Switch to renewable energy sources",
     "Optimize supply chain logistics",
     "Invest in carbon capture technology"]),
   ("transportation",
    ["Expand public transportation networks",
     "Promote electric vehicle infrastructure",
     "Implement congestion pricing",
     "Develop bike-friendly cities",
     "Optimize freight transportation"]),
   ("energy",
    ["Transition to renewable energy sources",
     "Modernize power grid infrastructure",
     "Implement smart grid technologies",
     "Promote energy storage solutions",
     "Develop microgrid systems"]),
   ("agriculture",
    ["Implement precision farming techniques",
     "Reduce fertilizer use",
     "Promote sustainable livestock management",
     "Develop agroforestry systems",
     "Support organic farming"])]

/-- Every string of the static catalog (the three emission-level lists and
the four industry-specific lists). -/
def catalog : List String :=
  (recommendations.map Prod.snd).flatten ++ (industry_specific.map Prod.snd).flatten

/-- The slope of the first-degree least-squares fit of
`np.polyfit(range(len(hist)), hist, 1)[0]`, in closed form
(`ℚ` division by zero yields `0`, matching numpy's minimum-norm solution
for a single point). -/
def trendSlope (hist : List ℚ) : ℚ :=
  let n : ℚ := hist.length
  let xs : List ℚ := (List.range hist.length).map (fun i => (i : ℚ))
  let sx := xs.sum
  let sy := hist.sum
  let sxy := ((xs.zip hist).map (fun p => p.1 * p.2)).sum
  let sxx := (xs.map (fun x => x * x)).sum
  (n * sxy - sx * sy) / (n * sxx - sx * sx)

/-- The emission-level band chosen by `get_recommendations`:
`> 10` high, `elif > 5` medium, otherwise low. -/
def emissionLevelOf (current_emissions : ℚ) : String :=
  if current_emissions > 10 then "high_emissions"
  else if current_emissions > 5 then "medium_emissions"
  else "low_emissions"

/-- `self.recommendations[emission_level]`. -/
def baseRecommendations (emission_level : String) : List String :=
  (recommendations.lookup emission_level).getD []

/-- The `industry_recs` accumulation: for every industry whose contribution
exceeds `0.2`, extend with `self.industry_specific.get(industry, [])`. -/
def industryRecsOf (industry_breakdown : List (String × ℚ)) : List String :=
  industry_breakdown.foldl
    (fun acc p =>
      if p.2 > 0.2 then acc ++ (industry_specific.lookup p.1).getD [] else acc)
    []

/-- The per-candidate priority score computed in the scoring loop of
`get_recommendations`. -/
def recScore (emission_level : String) (trend : ℚ) (industry_recs : List String)
    (rec : String) : ℤ :=
  (if emission_level = "high_emissions" then 2
   else if emission_level = "medium_emissions" then 1 else 0)
  + (if trend > 0 then 2 else 0)
  + (if rec ∈ industry_recs then 1 else 0)

/-- Descending order on `(score, recommendation)` pairs:
`sorted(zip(priority_scores, all_recommendations), reverse=True)` orders
pairs by score and breaks ties by string comparison, both descending. -/
def tupleGe (a b : ℤ × String) : Prop :=
  b.1 < a.1 ∨ (b.1 = a.1 ∧ strLe b.2 a.2 = true)

instance : DecidableRel tupleGe := fun a b => by
  unfold tupleGe; infer_instance

instance : IsTotal (ℤ × String) tupleGe where
  total a b := by
    rcases lt_trichotomy a.1 b.1 with h | h | h
    · right; left; exact h
    · rcases lexLe_total a.2.data b.2.data with hs | hs
      · right; right; exact ⟨h, hs⟩
      · left; right; exact ⟨h.symm, hs⟩
    · left; left; exact h

instance : IsTrans (ℤ × String) tupleGe where
  trans a b c hab hbc := by
    rcases hab with h1 | ⟨h1, hs1⟩
    · rcases hbc with h2 | ⟨h2, _⟩
      · left; omega
      · left; omega
    · rcases hbc with h2 | ⟨h2, hs2⟩
      · left; omega
      · right; exact ⟨by omega, lexLe_trans hs2 hs1⟩

/-- Result of `get_recommendations` (the echoed `analysis` sub-dictionary is
the plain input triple and is omitted). -/
structure RecommendationResult where
  emission_level : String
  trend : String
  trend_magnitude : ℚ
  recs : List String

/-- Embedding of `EmissionRecommendations.get_recommendations`.  Python's
`list(set(...))` deduplication has unspecified order; it is modelled by
`List.dedup` (first occurrences).  Since scores depend only on the string and
the sort order on `(score, string)` pairs is total, the returned top-5 list
does not depend on that choice. -/
def get_recommendations (current_emissions : ℚ) (historical_trend : List ℚ)
    (industry_breakdown : List (String × ℚ)) : RecommendationResult :=
  let trend := trendSlope historical_trend
  let emission_level := emissionLevelOf current_emissions
  let base_recommendations := baseRecommendations emission_level
  let industry_recs := industryRecsOf industry_breakdown
  let all_recommendations := (base_recommendations ++ industry_recs).dedup
  let scored := all_recommendations.map
    (fun r => (recScore emission_level trend industry_recs r, r))
  let sorted_recs := (List.insertionSort tupleGe scored).map Prod.snd
  { emission_level := emission_level
    trend := if trend > 0 then "increasing" else "decreasing"
    trend_magnitude := |trend|
    recs := sorted_recs.take 5 }

end EmissionRecommendations

/-- One cell of a pandas DataFrame: a number, a string, or a missing value. -/
inductive Cell
  | num (q : ℚ)
  | str (s : String)
  | na
deriving DecidableEq

/-- Reading a column of a row (`row[col]`); a column absent from the row
reads as missing. -/
def getCell (r : List (String × Cell)) (c : String) : Cell := (r.lookup c).getD .na

/-- The string held by a cell (non-strings give the junk value `""`,
which is never an aggregate-region name). -/
def cellStr : Cell → String
  | .str s => s
  | _ => ""

/-- The number held by a cell (non-numbers give the junk value `0`). -/
def cellNum : Cell → ℚ
  | .num q => q
  | _ => 0

/-- Whether a cell is missing (what `dropna` tests). -/
def isNa : Cell → Bool
  | .na => true
  | _ => false

/-- A pandas DataFrame: named columns and rows of cells keyed by column. -/
structure Table where
  columns : List String
  rows : List (List (String × Cell))
deriving DecidableEq

/-- The aggregate-region exclusion list, as written in both
`EmissionsDataProcessor.load_data` and `EmissionsModelTrainer.prepare_data`. -/
def aggregateRegions : List String :=
  ["World", "Asia", "Europe", "Africa", "North America", "South America", "Oceania"]

/-- `df[~df['country'].isin(aggregateRegions)]`. -/
def dropAggregates (t : Table) : Table :=
  { t with
    rows := t.rows.filter
      (fun r => !(aggregateRegions.contains (cellStr (getCell r "country")))) }

/-- The required column list of `EmissionsDataProcessor.load_data`. -/
def requiredColumns : List String :=
  ["year", "country", "gdp", "population", "energy_per_capita", "co2"]

/-- `df[cols]`: keep only the named columns. -/
def selectColumns (t : Table) (cols : List String) : Table :=
  { columns := cols, rows := t.rows.map (fun r => cols.map (fun c => (c, getCell r c))) }

/-- `sorted(column.unique().tolist())` for a numeric column. -/
def sortedUniqueQ (l : List ℚ) : List ℚ := List.insertionSort (· ≤ ·) l.dedup

/-- `sorted(column.unique().tolist())` for a string column
(Python sorts strings by code points, here `strLe`). -/
def sortedUniqueS (l : List String) : List String :=
  List.insertionSort (fun a b => strLe a b = true) l.dedup

/-- The environment of opaque learning algorithms (scikit-learn and XGBoost):
each fitter consumes the training data and returns the fitted estimator as a
function.  The learned parameters are not modelled; the claims under proof
do not depend on them. -/
structure MLEnv where
  fitScaler : List (List ℚ) → (List ℚ → List ℚ)
  fitLinear : List (List ℚ) → List ℚ → (List ℚ → ℚ)
  fitRF : List (List ℚ) → List ℚ → (List ℚ → ℚ)
  fitXGB : List (List ℚ) → List ℚ → (List ℚ → ℚ)

/-- A sample environment (used only to instantiate theorems at concrete
inputs). -/
def sampleEnv : MLEnv :=
  { fitScaler := fun _ => id
    fitLinear := fun _ _ _ => 0
    fitRF := fun _ _ _ => 0
    fitXGB := fun _ _ _ => 0 }

namespace EmissionsModelTrainer

/-- `self.features` of `EmissionsModelTrainer`. -/
def features : List String := ["gdp", "population", "energy_per_capita"]

/-- `self.target` of `EmissionsModelTrainer`. -/
def target : String := "co2"

/-- State of an `EmissionsModelTrainer`: in `__init__` the estimators and the
scaler exist but are unfitted (`none`); a fitted estimator is the function
produced by its fitter. -/
structure TrainerState where
  scalerFit : Option (List ℚ → List ℚ)
  linearFit : Option (List ℚ → ℚ)
  rfFit : Option (List ℚ → ℚ)

/-- The trainer as `__init__` leaves it: nothing fitted yet. -/
def initTrainer : TrainerState := ⟨none, none, none⟩

/-- The row selection performed by `EmissionsModelTrainer.prepare_data`
before scaling: drop aggregate-region rows, then drop rows with a missing
value in any feature or target column. -/
def prepare_data_rows (t : Table) : List (List (String × Cell)) :=
  (dropAggregates t).rows.filter
    (fun r => (features ++ [target]).all (fun c => !(isNa (getCell r c))))

/-- `EmissionsModelTrainer.train_and_evaluate`: prepare the data, fit the
scaler and both models, replacing any previous fit.  The train/test split,
the cross-validated metrics and the returned evaluation dictionary are
diagnostics computed from the opaque fitted estimators and are not modelled;
only the state replacement is. -/
def train_and_evaluate (env : MLEnv) (t : Table) : TrainerState :=
  let rows := prepare_data_rows t
  let rawX := rows.map (fun r => features.map (fun c => cellNum (getCell r c)))
  let y := rows.map (fun r => cellNum (getCell r target))
  let sc := env.fitScaler rawX
  { scalerFit := some sc
    linearFit := some (env.fitLinear (rawX.map sc) y)
    rfFit := some (env.fitRF (rawX.map sc) y) }

/-- Error raised when predicting with an unfitted pipeline: the spec's
`NotTrainedError`.  In the source it surfaces as scikit-learn's
`NotFittedError` from `self.scaler.transform` (there is no explicit guard in
`predict_emissions`). -/
inductive TrainerError
  | notTrained
deriving DecidableEq

/-- `EmissionsModelTrainer.predict_emissions`: scale the input with the
fitted scaler, then predict with the selected model (`'linear'` selects the
linear model, anything else the random forest). -/
def predict_emissions (tr : TrainerState) (gdp population energy_per_capita : ℚ)
    (model_type : String) : Except TrainerError ℚ :=
  match tr.scalerFit with
  | none => .error .notTrained
  | some sc =>
    let input_scaled := sc [gdp, population, energy_per_capita]
    if model_type = "linear" then
      match tr.linearFit with
      | none => .error .notTrained
      | some f => .ok (f input_scaled)
    else
      match tr.rfFit with
      | none => .error .notTrained
      | some f => .ok (f input_scaled)

end EmissionsModelTrainer

namespace EmissionsDataProcessor

open EmissionsModelTrainer

/-- State of an `EmissionsDataProcessor`: the held DataFrame (none before
any load), the derived year and country indices, and the owned trainer. -/
structure ProcessorState where
  data : Option Table
  years : List ℚ
  countries : List String
  model_trainer : TrainerState

/-- The processor as `__init__` leaves it. -/
def initProcessor : ProcessorState := ⟨none, [], [], initTrainer⟩

/-- How a `load_data` call fails.  Both variants are re-raised by the
source as a generic `Exception("Error loading data: ...")`; they are
distinguished by their message. -/
inductive LoadError
  | keyError (column : String)
  | schemaError (columns : List String)
deriving DecidableEq

/-- The filtered, column-projected table a successful load holds:
`self.data` after the aggregate filter and the `required_columns`
projection. -/
def projOf (t : Table) : Table := selectColumns (dropAggregates t) requiredColumns

/-- The processor state a successful `load_data` leaves behind. -/
def loadedState (env : MLEnv) (t : Table) : ProcessorState :=
  { data := some (projOf t)
    years := sortedUniqueQ ((projOf t).rows.map (fun r => cellNum (getCell r "year")))
    countries := sortedUniqueS ((projOf t).rows.map (fun r => cellStr (getCell r "country")))
    model_trainer := train_and_evaluate env (projOf t) }

/-- `EmissionsDataProcessor.load_data`, with the source's mutation order:
`self.data` is assigned the raw table, then the aggregate filter runs
(raising `KeyError` if the `country` column is absent), then the required
columns are checked (raising the schema `ValueError` if one is absent),
then the columns are projected, the year/country indices are rebuilt, and
`train_models` retrains the owned trainer.  The returned error is `none`
exactly when the load succeeds. -/
def load_data (env : MLEnv) (s : ProcessorState) (t : Table) :
    ProcessorState × Option LoadError :=
  if "country" ∉ t.columns then
    ({ s with data := some t }, some (.keyError "country"))
  else if ¬ (requiredColumns.all (fun c => t.columns.contains c) = true) then
    ({ s with data := some (dropAggregates t) }, some (.schemaError requiredColumns))
  else
    (loadedState env t, none)

/-- Error raised by data-dependent queries when `self.data is None`:
the spec's `NoDataError` (`Exception("No data loaded")` in the source). -/
inductive QueryError
  | noData
deriving DecidableEq

/-- One GeoJSON feature of `get_emissions_by_year`. -/
structure Feature where
  name : String
  emissions : Cell
  gdp : Cell
  population : Cell
  energy_per_capita : Cell
  year : ℚ
  id : String
deriving DecidableEq

/-- The GeoJSON FeatureCollection returned by `get_emissions_by_year`. -/
structure FeatureCollection where
  type : String
  features : List Feature
deriving DecidableEq

/-- `EmissionsDataProcessor.get_emissions_by_year`. -/
def get_emissions_by_year (s : ProcessorState) (year : ℚ) :
    Except QueryError FeatureCollection :=
  match s.data with
  | none => .error .noData
  | some t =>
    let year_data := t.rows.filter (fun r => getCell r "year" = Cell.num year)
    .ok { type := "FeatureCollection"
          features := year_data.map (fun r =>
            { name := cellStr (getCell r "country")
              emissions := getCell r "co2"
              gdp := getCell r "gdp"
              population := getCell r "population"
              energy_per_capita := getCell r "energy_per_capita"
              year := year
              id := cellStr (getCell r "country") }) }

/-- `EmissionsDataProcessor.get_country_timeline`. -/
def get_country_timeline (s : ProcessorState) (country : String) :
    Except QueryError (List (List (String × Cell))) :=
  match s.data with
  | none => .error .noData
  | some t => .ok (t.rows.filter (fun r => getCell r "country" = Cell.str country))

/-- `EmissionsDataProcessor.get_available_years`: returns the stored index
with no data-presence check. -/
def get_available_years (s : ProcessorState) : List ℚ := s.years

/-- `EmissionsDataProcessor.get_available_countries`: returns the stored
index with no data-presence check. -/
def get_available_countries (s : ProcessorState) : List String := s.countries

/-- Minimum of a numeric column (junk `0` on an empty column, where pandas
yields NaN; no claim touches that case). -/
def qMin : List ℚ → ℚ
  | [] => 0
  | x :: xs => xs.foldl min x

/-- Maximum of a numeric column. -/
def qMax : List ℚ → ℚ
  | [] => 0
  | x :: xs => xs.foldl max x

/-- `EmissionsDataProcessor.get_emissions_range` (pandas `min`/`max` skip
missing values). -/
def get_emissions_range (s : ProcessorState) : Except QueryError (ℚ × ℚ) :=
  match s.data with
  | none => .error .noData
  | some t =>
    let co2s := (t.rows.filter (fun r => !(isNa (getCell r "co2")))).map
      (fun r => cellNum (getCell r "co2"))
    .ok (qMin co2s, qMax co2s)

end EmissionsDataProcessor

/-- State of a `CO2Predictor`: in `__init__` the XGBoost regressor and the
scaler exist but are unfitted (`none`) and `is_trained` is false. -/
structure CO2Predictor where
  model : Option (List ℚ → ℚ)
  scaler : Option (List ℚ → List ℚ)
  is_trained : Bool

/-- The predictor as `__init__` leaves it. -/
def initCO2Predictor : CO2Predictor := ⟨none, none, false⟩

/-- A single-country time series handed to the predictor: the `country`
column (constant, read at `iloc[0]`) and the `(year, co2_emissions)` rows
in order. -/
structure CountryData where
  country : String
  rows : List (ℤ × ℚ)

namespace CO2Predictor

/-- The engineered feature vector of `prepare_features`:
`[year, year**2, year**3, emissions_lag1, emissions_lag2]`. -/
def featVec (year : ℤ) (lag1 lag2 : ℚ) : List ℚ :=
  [(year : ℚ), (year : ℚ) ^ 2, (year : ℚ) ^ 3, lag1, lag2]

/-- The feature matrix of `CO2Predictor.prepare_features`: one engineered
row per observation that has both lags, i.e. the first two rows of the
series are dropped by `dropna`. -/
def prepare_features : List (ℤ × ℚ) → List (List ℚ)
  | (_, e0) :: (y1, e1) :: (y2, e2) :: rest =>
    featVec y2 e1 e0 :: prepare_features ((y1, e1) :: (y2, e2) :: rest)
  | _ => []

/-- The target vector paired with `prepare_features` (the `co2_emissions`
of the surviving rows). -/
def prepare_targets (rows : List (ℤ × ℚ)) : List ℚ := (rows.drop 2).map Prod.snd

/-- `CO2Predictor.train`: engineer features, fit the scaler and the XGBoost
regressor on the scaled features, and set `is_trained`.  The in-sample
MSE/RMSE/R2 metrics are diagnostics of the opaque fitted model and are not
modelled. -/
def train (env : MLEnv) (p : CO2Predictor) (cd : CountryData) : CO2Predictor :=
  let X := prepare_features cd.rows
  let y := prepare_targets cd.rows
  let sc := env.fitScaler X
  { p with
    model := some (env.fitXGB (X.map sc) y)
    scaler := some sc
    is_trained := true }

/-- How `CO2Predictor.predict` fails: `notTrained` is the explicit
`ValueError("Model must be trained before making predictions")` guard (the
spec's `NotTrainedError`); `emptyFeatures` is the scikit-learn error raised
when the engineered feature matrix of the input series is empty (series
shorter than 3 rows), which aborts the call before any prediction is made. -/
inductive PredictError
  | notTrained
  | emptyFeatures
deriving DecidableEq

/-- `country_data['year'].max()`. -/
def lastYearOf (rows : List (ℤ × ℚ)) : ℤ :=
  match rows.map Prod.fst with
  | [] => 0
  | y :: ys => ys.foldl max y

/-- `country_data['co2_emissions'].iloc[-1]`. -/
def lastCo2 (rows : List (ℤ × ℚ)) : ℚ := ((rows.map Prod.snd).getLast?).getD 0

/-- `country_data['co2_emissions'].iloc[-2]`. -/
def penultCo2 (rows : List (ℤ × ℚ)) : ℚ := (rows.map Prod.snd).getD (rows.length - 2) 0

/-- One step of the iterative forecast loop: the year it predicts for, the
two lag features it fed into the model and the prediction it produced.
`year**2` and `year**3` are recomputed from `year` each step and are
determined by the `year` field. -/
structure StepRec where
  year : ℤ
  lag1 : ℚ
  lag2 : ℚ
  pred : ℚ
deriving DecidableEq

/-- The forecast loop of `CO2Predictor.predict`: at offset `k` from the last
observed year it builds `featVec (lastYear + k) lastEmission lag2`, scales
it, predicts, records the step, and carries the prediction forward as the
next `lastEmission`; `lag2` is never advanced. -/
def forecastTrace (m : List ℚ → ℚ) (sc : List ℚ → List ℚ) (lastYear : ℤ) (lag2 : ℚ) :
    ℚ → ℕ → ℕ → List StepRec
  | _, _, 0 => []
  | lastEmission, k, steps + 1 =>
    let year := lastYear + (k : ℤ)
    let pred := m (sc (featVec year lastEmission lag2))
    ⟨year, lastEmission, lag2, pred⟩ ::
      forecastTrace m sc lastYear lag2 pred (k + 1) steps

/-- `CO2Predictor.predict` up to the final packaging: the guard, the feature
preparation (whose emptiness aborts the call), and the iterative loop,
returning the per-step trace. -/
def predictTrace (p : CO2Predictor) (cd : CountryData) (years_ahead : ℕ) :
    Except PredictError (List StepRec) :=
  if p.is_trained = false then .error .notTrained
  else
    match p.model, p.scaler with
    | some m, some sc =>
      if prepare_features cd.rows = [] then .error .emptyFeatures
      else
        .ok (forecastTrace m sc (lastYearOf cd.rows) (penultCo2 cd.rows)
          (lastCo2 cd.rows) 1 years_ahead)
    | _, _ => .error .notTrained

/-- The dictionary returned by `CO2Predictor.predict`. -/
structure ForecastResult where
  country : String
  predictions : List (ℤ × ℚ)
deriving DecidableEq

/-- `CO2Predictor.predict`: the trace packaged as
`{"country": ..., "predictions": [(year, predicted_emissions), ...]}`. -/
def predict (p : CO2Predictor) (cd : CountryData) (years_ahead : ℕ) :
    Except PredictError ForecastResult :=
  (predictTrace p cd years_ahead).map
    (fun tr => ⟨cd.country, tr.map (fun st => (st.year, st.pred))⟩)

end CO2Predictor

section ListLemmas

theorem lookup_map_fn (f : String → Cell) (x : String) :
    ∀ cols : List String,
      List.lookup x (cols.map (fun c => (c, f c))) =
        if x ∈ cols then some (f x) else none
  | [] => rfl
  | c :: cols => by
    by_cases h : x = c
    · subst h
      simp [List.lookup]
    · have hb : (x == c) = false := beq_eq_false_iff_ne.mpr h
      simp [List.lookup, hb, lookup_map_fn f x cols, List.mem_cons, h]

theorem getCell_select (r : List (String × Cell)) (x : String) (cols : List String)
    (h : x ∈ cols) :
    getCell (cols.map (fun c => (c, getCell r c))) x = getCell r x := by
  unfold getCell
  rw [lookup_map_fn (fun c => (List.lookup c r).getD Cell.na) x cols, if_pos h]
  rfl

theorem mem_sortedUniqueQ {x : ℚ} {l : List ℚ} : x ∈ sortedUniqueQ l ↔ x ∈ l :=
  (List.Perm.mem_iff (List.perm_insertionSort _ _)).trans List.mem_dedup

theorem mem_sortedUniqueS {x : String} {l : List String} : x ∈ sortedUniqueS l ↔ x ∈ l :=
  (List.Perm.mem_iff (List.perm_insertionSort _ _)).trans List.mem_dedup

theorem lookup_some_mem_snd {l : List (String × List String)} {k : String}
    {v : List String} (h : l.lookup k = some v) : v ∈ l.map Prod.snd := by
  induction l with
  | nil => exact Option.noConfusion h
  | cons p tl ih =>
    obtain ⟨a, b⟩ := p
    rw [List.lookup] at h
    by_cases hk : k = a
    · have hb : (k == a) = true := beq_iff_eq.mpr hk
      rw [hb] at h
      simp only [Option.some.injEq] at h
      simp [h]
    · have hb : (k == a) = false := beq_eq_false_iff_ne.mpr hk
      rw [hb] at h
      simp [ih h]

end ListLemmas

section ProcessorLemmas

open EmissionsDataProcessor EmissionsModelTrainer

theorem dropAggregates_no_aggregate (t : Table) (r : List (String × Cell))
    (hr : r ∈ (dropAggregates t).rows) :
    cellStr (getCell r "country") ∉ aggregateRegions := by
  rw [dropAggregates] at hr
  have h := (List.mem_filter.mp hr).2
  simpa using h

theorem projOf_rows (t : Table) :
    (projOf t).rows =
      (dropAggregates t).rows.map (fun r => requiredColumns.map (fun c => (c, getCell r c))) :=
  rfl

theorem projOf_country (t : Table) (r : List (String × Cell)) (hr : r ∈ (projOf t).rows) :
    cellStr (getCell r "country") ∉ aggregateRegions := by
  rw [projOf_rows] at hr
  obtain ⟨r₀, hr₀, rfl⟩ := List.mem_map.mp hr
  rw [getCell_select r₀ "country" requiredColumns (by decide)]
  exact dropAggregates_no_aggregate t r₀ hr₀

theorem load_data_success (env : MLEnv) (s : ProcessorState) (t : Table)
    (h : (load_data env s t).2 = none) :
    (load_data env s t).1 = loadedState env t := by
  unfold load_data at h ⊢
  split_ifs at h ⊢ <;> simp_all

end ProcessorLemmas

/-- Claim C1: every prediction request made before any successful training
pass fails with the `NotTrainedError` of the spec: the country-level
`predict_emissions` fails on its unfitted scaler, and the time-series
`predict` fails on its explicit `is_trained` guard. -/
theorem predict_before_training_fails (gdp population energy_per_capita : ℚ)
    (model_type : String) (cd : CountryData) (years_ahead : ℕ) :
    EmissionsModelTrainer.predict_emissions EmissionsModelTrainer.initTrainer
        gdp population energy_per_capita model_type =
      .error .notTrained ∧
    CO2Predictor.predict initCO2Predictor cd years_ahead = .error .notTrained :=
  ⟨rfl, rfl⟩

/-- Claim C4: the recommendation scorer classifies the emission level as
high iff the current value exceeds 10, medium iff it exceeds 5 but not 10,
and low iff it is at most 5; exactly 10 is medium, not high. -/
theorem emission_band_thresholds (v : ℚ) :
    (EmissionRecommendations.emissionLevelOf v = "high_emissions" ↔ 10 < v) ∧
    (EmissionRecommendations.emissionLevelOf v = "medium_emissions" ↔ 5 < v ∧ v ≤ 10) ∧
    (EmissionRecommendations.emissionLevelOf v = "low_emissions" ↔ v ≤ 5) ∧
    EmissionRecommendations.emissionLevelOf 10 = "medium_emissions" := by
  refine ⟨?_, ?_, ?_, by norm_num [EmissionRecommendations.emissionLevelOf]⟩ <;>
    · unfold EmissionRecommendations.emissionLevelOf
      split_ifs with h1 h2 <;> simp_all <;> linarith

/-- A table whose columns omit only `country` among the required ones
(used to instantiate theorems at a concrete input). -/
def tableNoCountry : Table :=
  ⟨["year", "gdp", "population", "energy_per_capita", "co2"], []⟩

/-- A table whose columns omit only `gdp` among the required ones. -/
def tableNoGdp : Table :=
  ⟨["year", "country", "population", "energy_per_capita", "co2"], []⟩

/-- A well-formed sample table: one France row and one World row. -/
def sampleTable : Table :=
  { columns := ["year", "country", "gdp", "population", "energy_per_capita", "co2"]
    rows :=
      [[("year", .num 2019), ("country", .str "France"), ("gdp", .num 2700), ("population", .num 67), ("energy_per_capita", .num 40), ("co2", .num 5)],
       [("year", .num 2019), ("country", .str "World"), ("gdp", .num 80000), ("population", .num 7700), ("energy_per_capita", .num 20), ("co2", .num 36000)]] }

/-- Counterexample for claim C5: a source whose `country` column is absent
fails at the aggregate filter with a `KeyError`, not with the schema
`ValueError` the spec calls `SchemaError` (that check is never reached). -/
theorem load_no_country_is_key_error :
    (EmissionsDataProcessor.load_data sampleEnv EmissionsDataProcessor.initProcessor
        tableNoCountry).2 = some (.keyError "country") ∧
    EmissionsDataProcessor.LoadError.keyError "country" ≠
      EmissionsDataProcessor.LoadError.schemaError requiredColumns :=
  ⟨rfl, by decide⟩

/-- Claim C5 (amended): when a required column is absent, `load_data` fails —
with the schema error if the `country` column is present, and with the
`KeyError` from the aggregate filter if `country` itself is the absent one —
and the year/country indices and the trained models are left untouched. -/
theorem load_missing_column_fails (env : MLEnv)
    (s : EmissionsDataProcessor.ProcessorState) (t : Table)
    (h : ¬ (requiredColumns.all (fun c => t.columns.contains c) = true)) :
    (EmissionsDataProcessor.load_data env s t).2 =
      some (if "country" ∈ t.columns then .schemaError requiredColumns
            else .keyError "country") ∧
    (EmissionsDataProcessor.load_data env s t).1.years = s.years ∧
    (EmissionsDataProcessor.load_data env s t).1.countries = s.countries ∧
    (EmissionsDataProcessor.load_data env s t).1.model_trainer = s.model_trainer := by
  unfold EmissionsDataProcessor.load_data
  by_cases hc : "country" ∉ t.columns
  · rw [if_pos hc, if_neg hc]
    exact ⟨rfl, rfl, rfl, rfl⟩
  · rw [not_not] at hc
    rw [if_neg (not_not_intro hc), if_pos h, if_pos hc]
    exact ⟨rfl, rfl, rfl, rfl⟩

/-- Witness for claim C5 at a concrete input: a table missing only `gdp`. -/
theorem load_missing_column_fails_witness :
    (EmissionsDataProcessor.load_data sampleEnv EmissionsDataProcessor.initProcessor
        tableNoGdp).2 =
      some (if "country" ∈ tableNoGdp.columns then .schemaError requiredColumns
            else .keyError "country") ∧
    (EmissionsDataProcessor.load_data sampleEnv EmissionsDataProcessor.initProcessor
        tableNoGdp).1.years = EmissionsDataProcessor.initProcessor.years ∧
    (EmissionsDataProcessor.load_data sampleEnv EmissionsDataProcessor.initProcessor
        tableNoGdp).1.countries = EmissionsDataProcessor.initProcessor.countries ∧
    (EmissionsDataProcessor.load_data sampleEnv EmissionsDataProcessor.initProcessor
        tableNoGdp).1.model_trainer = EmissionsDataProcessor.initProcessor.model_trainer :=
  load_missing_column_fails sampleEnv EmissionsDataProcessor.initProcessor tableNoGdp
    (by decide)

/-- Counterexample for claim C8: `get_available_years` called on a fresh
processor (no load has happened) does not fail with `NoDataError`; it
returns the initial empty list. -/
theorem available_years_before_load_returns_value :
    EmissionsDataProcessor.get_available_years EmissionsDataProcessor.initProcessor = [] :=
  rfl

/-- Claim C8 (amended): before any load, the queries that touch the raw
table — emissions-by-year, country timeline, emissions range — fail with
`NoDataError`, while `get_available_years`/`get_available_countries` lack
the guard and return the stored (initially empty) index lists. -/
theorem queries_before_load (s : EmissionsDataProcessor.ProcessorState)
    (year : ℚ) (country : String) (h : s.data = none) :
    EmissionsDataProcessor.get_emissions_by_year s year = .error .noData ∧
    EmissionsDataProcessor.get_country_timeline s country = .error .noData ∧
    EmissionsDataProcessor.get_emissions_range s = .error .noData ∧
    EmissionsDataProcessor.get_available_years s = s.years ∧
    EmissionsDataProcessor.get_available_countries s = s.countries := by
  refine ⟨?_, ?_, ?_, rfl, rfl⟩ <;>
    simp [EmissionsDataProcessor.get_emissions_by_year,
      EmissionsDataProcessor.get_country_timeline,
      EmissionsDataProcessor.get_emissions_range, h]

/-- Witness for claim C8 at the concrete fresh processor. -/
theorem queries_before_load_witness :
    EmissionsDataProcessor.get_emissions_by_year EmissionsDataProcessor.initProcessor 2019 =
        .error .noData ∧
    EmissionsDataProcessor.get_country_timeline EmissionsDataProcessor.initProcessor "France" =
        .error .noData ∧
    EmissionsDataProcessor.get_emissions_range EmissionsDataProcessor.initProcessor =
        .error .noData ∧
    EmissionsDataProcessor.get_available_years EmissionsDataProcessor.initProcessor =
        EmissionsDataProcessor.initProcessor.years ∧
    EmissionsDataProcessor.get_available_countries EmissionsDataProcessor.initProcessor =
        EmissionsDataProcessor.initProcessor.countries :=
  queries_before_load EmissionsDataProcessor.initProcessor 2019 "France" rfl

/-- Claim C6: after every successful load, no aggregate-region name appears
among the available countries or in any emissions-by-year feature, and the
trainer's own `prepare_data` row selection independently removes
aggregate-region rows from any table. -/
theorem no_aggregates_after_load (env : MLEnv)
    (s : EmissionsDataProcessor.ProcessorState) (t : Table) (a : String) (y : ℚ)
    (hl : (EmissionsDataProcessor.load_data env s t).2 = none)
    (ha : a ∈ aggregateRegions) :
    a ∉ (EmissionsDataProcessor.load_data env s t).1.countries ∧
    (∀ fc, EmissionsDataProcessor.get_emissions_by_year
        (EmissionsDataProcessor.load_data env s t).1 y = .ok fc →
      ∀ f ∈ fc.features, f.name ≠ a ∧ f.id ≠ a) ∧
    (∀ r ∈ EmissionsModelTrainer.prepare_data_rows t,
      cellStr (getCell r "country") ≠ a) := by
  rw [load_data_success env s t hl]
  refine ⟨?_, ?_, ?_⟩
  · intro hmem
    rw [EmissionsDataProcessor.loadedState] at hmem
    simp only at hmem
    obtain ⟨r, hr, hra⟩ := List.mem_map.mp (mem_sortedUniqueS.mp hmem)
    exact projOf_country t r hr (hra ▸ ha)
  · intro fc hfc f hf
    rw [EmissionsDataProcessor.loadedState, EmissionsDataProcessor.get_emissions_by_year] at hfc
    simp only [Except.ok.injEq] at hfc
    subst hfc
    simp only at hf
    obtain ⟨r, hr, rfl⟩ := List.mem_map.mp hf
    have hrp : r ∈ (EmissionsDataProcessor.projOf t).rows := (List.mem_filter.mp hr).1
    have hag := projOf_country t r hrp
    constructor
    · show cellStr (getCell r "country") ≠ a
      intro hna
      exact hag (hna ▸ ha)
    · show cellStr (getCell r "country") ≠ a
      intro hna
      exact hag (hna ▸ ha)
  · intro r hr
    have hrd : r ∈ (dropAggregates t).rows := (List.mem_filter.mp hr).1
    intro hna
    exact dropAggregates_no_aggregate t r hrd (hna ▸ ha)

/-- Witness for claim C6 at a concrete load of `sampleTable`. -/
theorem no_aggregates_after_load_witness :
    "World" ∉ (EmissionsDataProcessor.load_data sampleEnv
        EmissionsDataProcessor.initProcessor sampleTable).1.countries ∧
    (∀ fc, EmissionsDataProcessor.get_emissions_by_year
        (EmissionsDataProcessor.load_data sampleEnv
          EmissionsDataProcessor.initProcessor sampleTable).1 2019 = .ok fc →
      ∀ f ∈ fc.features, f.name ≠ "World" ∧ f.id ≠ "World") ∧
    (∀ r ∈ EmissionsModelTrainer.prepare_data_rows sampleTable,
      cellStr (getCell r "country") ≠ "World") :=
  no_aggregates_after_load sampleEnv EmissionsDataProcessor.initProcessor sampleTable
    "World" 2019 rfl (by decide)

/-- Claim C9: on a loaded dataset, querying emissions for a year absent from
the dataset yields a FeatureCollection with an empty feature list, and the
timeline of an absent country is the empty list; neither query fails. -/
theorem absent_key_queries_empty (env : MLEnv)
    (s : EmissionsDataProcessor.ProcessorState) (t : Table) (y : ℚ) (c : String)
    (hl : (EmissionsDataProcessor.load_data env s t).2 = none)
    (hy : y ∉ (EmissionsDataProcessor.load_data env s t).1.years)
    (hc : c ∉ (EmissionsDataProcessor.load_data env s t).1.countries) :
    EmissionsDataProcessor.get_emissions_by_year
        (EmissionsDataProcessor.load_data env s t).1 y =
      .ok { type := "FeatureCollection", features := [] } ∧
    EmissionsDataProcessor.get_country_timeline
        (EmissionsDataProcessor.load_data env s t).1 c = .ok [] := by
  rw [load_data_success env s t hl] at hy hc ⊢
  rw [EmissionsDataProcessor.loadedState] at hy hc
  simp only at hy hc
  constructor
  · rw [EmissionsDataProcessor.loadedState, EmissionsDataProcessor.get_emissions_by_year]
    simp only [Except.ok.injEq]
    have hfil : ∀ r ∈ (EmissionsDataProcessor.projOf t).rows,
        ¬ (getCell r "year" = Cell.num y) := by
      intro r hr heq
      exact hy (mem_sortedUniqueQ.mpr (List.mem_map.mpr ⟨r, hr, by rw [heq]; rfl⟩))
    rw [List.filter_eq_nil_iff.mpr (by intro r hr; simpa using hfil r hr)]
    rfl
  · rw [EmissionsDataProcessor.loadedState, EmissionsDataProcessor.get_country_timeline]
    simp only [Except.ok.injEq]
    have hfil : ∀ r ∈ (EmissionsDataProcessor.projOf t).rows,
        ¬ (getCell r "country" = Cell.str c) := by
      intro r hr heq
      exact hc (mem_sortedUniqueS.mpr (List.mem_map.mpr ⟨r, hr, by rw [heq]; rfl⟩))
    rw [List.filter_eq_nil_iff.mpr (by intro r hr; simpa using hfil r hr)]

/-- Witness for claim C9: load `sampleTable`, then query a year and a
country that are not in it. -/
theorem absent_key_queries_empty_witness :
    EmissionsDataProcessor.get_emissions_by_year
        (EmissionsDataProcessor.load_data sampleEnv
          EmissionsDataProcessor.initProcessor sampleTable).1 1999 =
      .ok { type := "FeatureCollection", features := [] } ∧
    EmissionsDataProcessor.get_country_timeline
        (EmissionsDataProcessor.load_data sampleEnv
          EmissionsDataProcessor.initProcessor sampleTable).1 "Germany" = .ok [] :=
  absent_key_queries_empty sampleEnv EmissionsDataProcessor.initProcessor sampleTable
    1999 "Germany" rfl (by decide) (by decide)

section ForecastLemmas

theorem prepare_features_length :
    ∀ rows : List (ℤ × ℚ), (CO2Predictor.prepare_features rows).length = rows.length - 2
  | [] => rfl
  | [_] => rfl
  | [_, _] => rfl
  | (_, _) :: (y1, e1) :: (y2, e2) :: rest => by
    rw [CO2Predictor.prepare_features]
    simp only [List.length_cons]
    rw [prepare_features_length ((y1, e1) :: (y2, e2) :: rest)]
    simp only [List.length_cons]
    omega

theorem forecastTrace_length (m : List ℚ → ℚ) (sc : List ℚ → List ℚ)
    (ly : ℤ) (l2 : ℚ) :
    ∀ (le : ℚ) (k n : ℕ), (CO2Predictor.forecastTrace m sc ly l2 le k n).length = n
  | _, _, 0 => rfl
  | le, k, n + 1 => by
    rw [CO2Predictor.forecastTrace]
    simp only [List.length_cons]
    rw [forecastTrace_length m sc ly l2 _ (k + 1) n]

theorem forecastTrace_years (m : List ℚ → ℚ) (sc : List ℚ → List ℚ)
    (ly : ℤ) (l2 : ℚ) :
    ∀ (le : ℚ) (k n : ℕ),
      (CO2Predictor.forecastTrace m sc ly l2 le k n).map CO2Predictor.StepRec.year =
        (List.range n).map (fun i : ℕ => ly + (k : ℤ) + (i : ℤ))
  | _, _, 0 => by simp [CO2Predictor.forecastTrace]
  | le, k, n + 1 => by
    rw [CO2Predictor.forecastTrace, List.range_succ_eq_map]
    simp only [List.map_cons, List.map_map, List.cons.injEq]
    constructor
    · push_cast
      ring
    · rw [forecastTrace_years m sc ly l2 _ (k + 1) n]
      refine List.map_congr_left fun i _ => ?_
      simp only [Function.comp]
      push_cast
      ring

theorem forecastTrace_lag2 (m : List ℚ → ℚ) (sc : List ℚ → List ℚ)
    (ly : ℤ) (l2 : ℚ) :
    ∀ (le : ℚ) (k n : ℕ),
      ∀ st ∈ CO2Predictor.forecastTrace m sc ly l2 le k n, st.lag2 = l2
  | _, _, 0 => by simp [CO2Predictor.forecastTrace]
  | le, k, n + 1 => by
    intro st hst
    rw [CO2Predictor.forecastTrace] at hst
    rcases List.mem_cons.mp hst with rfl | hst'
    · rfl
    · exact forecastTrace_lag2 m sc ly l2 _ (k + 1) n st hst'

theorem forecastTrace_lag1 (m : List ℚ → ℚ) (sc : List ℚ → List ℚ)
    (ly : ℤ) (l2 : ℚ) :
    ∀ (le : ℚ) (k n : ℕ),
      (CO2Predictor.forecastTrace m sc ly l2 le k n).map CO2Predictor.StepRec.lag1 =
        (le :: (CO2Predictor.forecastTrace m sc ly l2 le k n).map
          CO2Predictor.StepRec.pred).take n
  | _, _, 0 => by simp [CO2Predictor.forecastTrace]
  | le, k, n + 1 => by
    rw [CO2Predictor.forecastTrace]
    simp only [List.map_cons, List.take_succ_cons, List.cons.injEq]
    exact ⟨trivial, forecastTrace_lag1 m sc ly l2 _ (k + 1) n⟩

end ForecastLemmas

/-- Counterexample for claim C2: a trained forecaster given a two-row series
(horizon 1) fails — the engineered feature matrix is empty once the two
lag-dropped rows are gone — instead of returning one (year, value) pair. -/
theorem forecast_short_series_fails :
    CO2Predictor.predict ⟨some (fun _ => 0), some id, true⟩
        ⟨"X", [(2019, 1), (2020, 2)]⟩ 1 = .error .emptyFeatures :=
  rfl

/-- Claim C2 (amended): for every trained forecaster, every input series
with at least 3 observations, and every horizon, the forecast succeeds and
returns exactly `horizon` (year, value) pairs whose years are strictly
increasing, starting one year after the last observed year. -/
theorem forecast_length_invariant (m : List ℚ → ℚ) (sc : List ℚ → List ℚ)
    (country : String) (rows : List (ℤ × ℚ)) (n : ℕ) (h : 3 ≤ rows.length) :
    ∃ r : CO2Predictor.ForecastResult,
      CO2Predictor.predict ⟨some m, some sc, true⟩ ⟨country, rows⟩ n = .ok r ∧
      r.predictions.length = n ∧
      r.predictions.map Prod.fst =
        (List.range n).map (fun i : ℕ => CO2Predictor.lastYearOf rows + 1 + (i : ℤ)) ∧
      (r.predictions.map Prod.fst).Pairwise (fun a b => a < b) := by
  have hX : ¬ (CO2Predictor.prepare_features rows = []) := by
    intro hnil
    have hlen := prepare_features_length rows
    rw [hnil] at hlen
    simp only [List.length_nil] at hlen
    omega
  have htr : CO2Predictor.predictTrace ⟨some m, some sc, true⟩ ⟨country, rows⟩ n =
      .ok (CO2Predictor.forecastTrace m sc (CO2Predictor.lastYearOf rows)
        (CO2Predictor.penultCo2 rows) (CO2Predictor.lastCo2 rows) 1 n) := by
    rw [CO2Predictor.predictTrace]
    simp [hX]
  have hyears : (CO2Predictor.forecastTrace m sc (CO2Predictor.lastYearOf rows)
      (CO2Predictor.penultCo2 rows) (CO2Predictor.lastCo2 rows) 1 n).map
        CO2Predictor.StepRec.year =
        (List.range n).map (fun i : ℕ => CO2Predictor.lastYearOf rows + 1 + (i : ℤ)) := by
    rw [forecastTrace_years m sc _ _ _ 1 n]
    refine List.map_congr_left fun i _ => ?_
    push_cast
    ring
  have hmap : ((CO2Predictor.forecastTrace m sc (CO2Predictor.lastYearOf rows)
      (CO2Predictor.penultCo2 rows) (CO2Predictor.lastCo2 rows) 1 n).map
        (fun st => (st.year, st.pred))).map Prod.fst =
      (List.range n).map (fun i : ℕ => CO2Predictor.lastYearOf rows + 1 + (i : ℤ)) := by
    rw [List.map_map, ← hyears]
    rfl
  refine ⟨_, by rw [CO2Predictor.predict, htr]; rfl, ?_, hmap, ?_⟩
  · simp only [List.length_map]
    exact forecastTrace_length m sc _ _ _ 1 n
  · rw [hmap, List.pairwise_map]
    refine (List.pairwise_lt_range n).imp ?_
    intro a b hab
    omega

/-- A concrete three-observation series for instantiating the forecast
theorems. -/
def sampleSeries : CountryData := ⟨"X", [(2018, 1), (2019, 2), (2020, 3)]⟩

/-- Witness for claim C2 at a concrete trained forecaster and series. -/
theorem forecast_length_invariant_witness :
    ∃ r : CO2Predictor.ForecastResult,
      CO2Predictor.predict ⟨some (fun _ => 0), some id, true⟩
          ⟨"X", [(2018, 1), (2019, 2), (2020, 3)]⟩ 2 = .ok r ∧
      r.predictions.length = 2 ∧
      r.predictions.map Prod.fst =
        (List.range 2).map
          (fun i : ℕ => CO2Predictor.lastYearOf [(2018, 1), (2019, 2), (2020, 3)] + 1 + (i : ℤ)) ∧
      (r.predictions.map Prod.fst).Pairwise (fun a b => a < b) :=
  forecast_length_invariant (fun _ => 0) id "X" [(2018, 1), (2019, 2), (2020, 3)] 2
    (by decide)

/-- Claim C3: whenever the iterative forecast loop runs, each step's lag-1
feature is the previous step's prediction (the series' true last observed
value for the first step), and each step's lag-2 feature is the series'
true second-to-last observed value, never advanced. -/
theorem forecast_lag_feature_update (p : CO2Predictor) (cd : CountryData) (n : ℕ)
    (tr : List CO2Predictor.StepRec)
    (h : CO2Predictor.predictTrace p cd n = .ok tr) :
    (∀ st ∈ tr, st.lag2 = CO2Predictor.penultCo2 cd.rows) ∧
    tr.map CO2Predictor.StepRec.lag1 =
      (CO2Predictor.lastCo2 cd.rows :: tr.map CO2Predictor.StepRec.pred).take n := by
  rw [CO2Predictor.predictTrace] at h
  by_cases h1 : p.is_trained = false
  · rw [if_pos h1] at h
    exact Except.noConfusion h
  · rw [if_neg h1] at h
    rcases hm : p.model with _ | m <;> rcases hs : p.scaler with _ | sc <;>
      rw [hm, hs] at h
    · exact Except.noConfusion h
    · exact Except.noConfusion h
    · exact Except.noConfusion h
    · change (if CO2Predictor.prepare_features cd.rows = [] then
          Except.error CO2Predictor.PredictError.emptyFeatures
        else Except.ok (CO2Predictor.forecastTrace m sc (CO2Predictor.lastYearOf cd.rows)
          (CO2Predictor.penultCo2 cd.rows) (CO2Predictor.lastCo2 cd.rows) 1 n)) =
          Except.ok tr at h
      by_cases h2 : CO2Predictor.prepare_features cd.rows = []
      · rw [if_pos h2] at h
        exact Except.noConfusion h
      · rw [if_neg h2] at h
        have htr := Except.ok.inj h
        subst htr
        exact ⟨forecastTrace_lag2 m sc _ _ _ 1 n,
          forecastTrace_lag1 m sc _ _ _ 1 n⟩

/-- Witness for claim C3 at a concrete trained forecaster, series and trace. -/
theorem forecast_lag_feature_update_witness :
    (∀ st ∈ [(⟨2021, 3, 2, 0⟩ : CO2Predictor.StepRec), ⟨2022, 0, 2, 0⟩],
      st.lag2 = CO2Predictor.penultCo2 sampleSeries.rows) ∧
    ([(⟨2021, 3, 2, 0⟩ : CO2Predictor.StepRec), ⟨2022, 0, 2, 0⟩].map
        CO2Predictor.StepRec.lag1 =
      (CO2Predictor.lastCo2 sampleSeries.rows ::
        [(⟨2021, 3, 2, 0⟩ : CO2Predictor.StepRec), ⟨2022, 0, 2, 0⟩].map
          CO2Predictor.StepRec.pred).take 2) :=
  forecast_lag_feature_update ⟨some (fun _ => 0), some id, true⟩ sampleSeries 2
    [⟨2021, 3, 2, 0⟩, ⟨2022, 0, 2, 0⟩] rfl

section RecommendationLemmas

open EmissionRecommendations

theorem get_recommendations_structure (cur : ℚ) (hist : List ℚ)
    (ind : List (String × ℚ)) :
    ∃ D : List String,
      (get_recommendations cur hist ind).recs = D.take 5 ∧
      D.Perm ((baseRecommendations (emissionLevelOf cur) ++ industryRecsOf ind).dedup) ∧
      D.Pairwise (fun r1 r2 =>
        recScore (emissionLevelOf cur) (trendSlope hist) (industryRecsOf ind) r2 ≤
          recScore (emissionLevelOf cur) (trendSlope hist) (industryRecsOf ind) r1) := by
  refine ⟨(List.insertionSort tupleGe
      (((baseRecommendations (emissionLevelOf cur) ++ industryRecsOf ind).dedup).map
        (fun r => (recScore (emissionLevelOf cur) (trendSlope hist)
          (industryRecsOf ind) r, r)))).map Prod.snd, rfl, ?_, ?_⟩
  · refine ((List.perm_insertionSort tupleGe _).map Prod.snd).trans ?_
    rw [List.map_map]
    rw [show (Prod.snd ∘ fun r : String =>
        (recScore (emissionLevelOf cur) (trendSlope hist) (industryRecsOf ind) r, r)) = id
      from rfl]
    rw [List.map_id]
  · have hsorted := List.sorted_insertionSort tupleGe
      (((baseRecommendations (emissionLevelOf cur) ++ industryRecsOf ind).dedup).map
        (fun r => (recScore (emissionLevelOf cur) (trendSlope hist)
          (industryRecsOf ind) r, r)))
    have hval : ∀ p ∈ List.insertionSort tupleGe
        (((baseRecommendations (emissionLevelOf cur) ++ industryRecsOf ind).dedup).map
          (fun r => (recScore (emissionLevelOf cur) (trendSlope hist)
            (industryRecsOf ind) r, r))),
        p.1 = recScore (emissionLevelOf cur) (trendSlope hist) (industryRecsOf ind) p.2 := by
      intro p hp
      have hp' := (List.perm_insertionSort tupleGe _).mem_iff.mp hp
      obtain ⟨r, _, rfl⟩ := List.mem_map.mp hp'
      rfl
    rw [List.pairwise_map]
    refine List.Pairwise.imp_of_mem ?_ hsorted
    intro p q hp hq hpq
    have e1 := hval p hp
    have e2 := hval q hq
    rcases hpq with hlt | ⟨heq, _⟩
    · rw [← e1, ← e2]
      exact le_of_lt hlt
    · rw [← e1, ← e2, heq]

theorem lookupIndustry_subset_catalog (k : String) :
    ∀ x ∈ (industry_specific.lookup k).getD [], x ∈ catalog := by
  cases hlv : industry_specific.lookup k with
  | none => simp
  | some l =>
    intro x hx
    simp only [Option.getD_some] at hx
    exact List.mem_append_right _
      (List.mem_flatten.mpr ⟨l, lookup_some_mem_snd hlv, hx⟩)

theorem baseRecommendations_subset_catalog (lvl : String) :
    ∀ x ∈ baseRecommendations lvl, x ∈ catalog := by
  unfold baseRecommendations
  cases hlv : recommendations.lookup lvl with
  | none => simp
  | some l =>
    intro x hx
    simp only [Option.getD_some] at hx
    exact List.mem_append_left _
      (List.mem_flatten.mpr ⟨l, lookup_some_mem_snd hlv, hx⟩)

theorem industryRecsOf_subset_catalog (ind : List (String × ℚ)) :
    ∀ x ∈ industryRecsOf ind, x ∈ catalog := by
  unfold industryRecsOf
  suffices h : ∀ (l : List (String × ℚ)) (acc : List String),
      (∀ x ∈ acc, x ∈ catalog) →
      ∀ x ∈ l.foldl (fun acc p =>
          if p.2 > 0.2 then acc ++ (industry_specific.lookup p.1).getD [] else acc) acc,
        x ∈ catalog by
    exact h ind [] (by simp)
  intro l
  induction l with
  | nil => intro acc hacc x hx; exact hacc x hx
  | cons p tl ih =>
    intro acc hacc x hx
    rw [List.foldl_cons] at hx
    refine ih _ ?_ x hx
    intro z hz
    by_cases hc : p.2 > 0.2
    · rw [if_pos hc] at hz
      rcases List.mem_append.mp hz with hz' | hz'
      · exact hacc z hz'
      · exact lookupIndustry_subset_catalog p.1 z hz'
    · rw [if_neg hc] at hz
      exact hacc z hz

/-- Claim C7: each deduplicated candidate is scored by the band bonus
(+2 high, +1 medium, +0 low), +2 for a strictly positive trend slope and
+1 for coming from an industry-specific list (`recScore`); the returned
recommendations are the top 5 candidates in non-increasing score order:
at most 5, drawn from the candidates, sorted by non-increasing score, and
no omitted candidate outscores a returned one. -/
theorem recommendation_scoring_top5 (cur : ℚ) (hist : List ℚ)
    (ind : List (String × ℚ)) :
    (get_recommendations cur hist ind).recs.length =
      min 5 ((baseRecommendations (emissionLevelOf cur) ++ industryRecsOf ind).dedup).length ∧
    (get_recommendations cur hist ind).recs.Pairwise (fun r1 r2 =>
      recScore (emissionLevelOf cur) (trendSlope hist) (industryRecsOf ind) r2 ≤
        recScore (emissionLevelOf cur) (trendSlope hist) (industryRecsOf ind) r1) ∧
    (∀ r ∈ (get_recommendations cur hist ind).recs,
      r ∈ (baseRecommendations (emissionLevelOf cur) ++ industryRecsOf ind).dedup) ∧
    (∀ r' ∈ (baseRecommendations (emissionLevelOf cur) ++ industryRecsOf ind).dedup,
      r' ∉ (get_recommendations cur hist ind).recs →
      ∀ r ∈ (get_recommendations cur hist ind).recs,
        recScore (emissionLevelOf cur) (trendSlope hist) (industryRecsOf ind) r' ≤
          recScore (emissionLevelOf cur) (trendSlope hist) (industryRecsOf ind) r) := by
  obtain ⟨D, hD, hperm, hpair⟩ := get_recommendations_structure cur hist ind
  refine ⟨?_, ?_, ?_, ?_⟩
  · rw [hD, List.length_take, hperm.length_eq]
  · rw [hD]
    exact List.Pairwise.sublist (List.take_sublist 5 D) hpair
  · intro r hr
    rw [hD] at hr
    exact hperm.mem_iff.mp (List.take_subset 5 D hr)
  · intro r' hcand hnot r hr
    rw [hD] at hnot hr
    have hr'D : r' ∈ D := hperm.mem_iff.mpr hcand
    have hsplit : D.take 5 ++ D.drop 5 = D := List.take_append_drop 5 D
    have hr'drop : r' ∈ D.drop 5 := by
      rcases List.mem_append.mp (hsplit ▸ hr'D) with h' | h'
      · exact absurd h' hnot
      · exact h'
    have hcross := (List.pairwise_append.mp (hsplit ▸ hpair)).2.2
    exact hcross r hr r' hr'drop

/-- Claim C10: every returned recommendation string belongs to the static
catalog (the three emission-level lists together with the four
industry-specific lists), and the returned list has no duplicates. -/
theorem recommendations_catalog_nodup (cur : ℚ) (hist : List ℚ)
    (ind : List (String × ℚ)) :
    (∀ r ∈ (get_recommendations cur hist ind).recs, r ∈ catalog) ∧
    (get_recommendations cur hist ind).recs.Nodup := by
  obtain ⟨D, hD, hperm, _⟩ := get_recommendations_structure cur hist ind
  constructor
  · intro r hr
    rw [hD] at hr
    have hcand := hperm.mem_iff.mp (List.take_subset 5 D hr)
    rcases List.mem_append.mp (List.dedup_subset _ hcand) with h' | h'
    · exact baseRecommendations_subset_catalog _ r h'
    · exact industryRecsOf_subset_catalog ind r h'
  · rw [hD]
    exact List.Nodup.sublist (List.take_sublist 5 D)
      (hperm.nodup_iff.mpr (List.nodup_dedup _))

end RecommendationLemmas
